import Mathlib

/-!
# Verification of `demo_rag_voice_simple.py` (open-responses, indic-agentic-search example)

A shallow embedding of the orchestration control flow of the voice RAG demo
script.  External service calls (file upload, vector-store creation, file
attachment, the responses endpoint, speech-to-text transcription, text-to-speech
synthesis, audio playback) are modelled by oracle values describing their
outcome: either a returned value or a raised exception carrying a message.
Side effects (network calls, temporary-file creation and deletion, playback)
are recorded in explicit event traces so that frame and cleanup properties can
be stated.  Machine state is the `Session` record holding the vector-store
identifier and the previous response identifier, exactly as the Python object
does.
-/

/-- Session state of `VoiceRAGDemo`: the two mutable fields used by the
conversation (`self.vector_store_id`, `self.previous_response_id`), both
initialised to `None`. -/
structure Session where
  vector_store_id : Option String
  previous_response_id : Option String
deriving DecidableEq, Repr

/-- Python truthiness of an optional string: `None` and the empty string are
falsy (`if not self.vector_store_id:` in `process_query`). -/
def pyTruthy : Option String → Bool
  | none => false
  | some s => !(s == "")

/-- An element of a `content` list in the response: a message content part
carrying a `.text` field (the shape `response.output[0].content[0].text`
accesses). -/
structure ContentItem where
  text : String
deriving DecidableEq, Repr

/-- The duck-typed shapes the code probes for `response.output[0].content`:
a Python list of content items, a non-list object possibly carrying a `.text`
attribute together with its `str()` rendering, or an absent/falsy attribute. -/
inductive Content where
  | clist (items : List ContentItem)
  | cattr (text : Option String) (srepr : String)
  | cnone
deriving DecidableEq, Repr

/-- An element of the `response.output` list: its `content` attribute shape and
its `str()` rendering. -/
structure OutputElem where
  content : Content
  srepr : String
deriving DecidableEq, Repr

/-- The duck-typed shapes the code probes for `response.output`: a Python list
of output elements, or a truthy non-list object with its `str()` rendering. -/
inductive Output where
  | olist (elems : List OutputElem)
  | oobj (srepr : String)
deriving DecidableEq, Repr

/-- A response from the responses endpoint: an optional `id` attribute
(`hasattr(response, 'id')`) and an optional `output` attribute, where `none`
also covers a falsy `output`. -/
structure RagResponse where
  id : Option String
  output : Option Output
deriving DecidableEq, Repr

/-- The outcome of the remote `responses.create` call: either it raises an
exception with a message, or it returns a response value. -/
inductive SvcResult where
  | raises (msg : String)
  | returns (resp : RagResponse)
deriving DecidableEq, Repr

/-- A network event: one invocation of the responses endpoint. -/
inductive NetEv where
  | respCreate
deriving DecidableEq, Repr

/-- The text-extraction cascade at the end of `process_query`
(lines 276-292): probes `response.output` for a non-empty list whose first
element has a truthy `content`; inside that, a non-empty content list yields
`content[0].text`, a `.text` attribute yields that attribute, otherwise the
string cast of the content; a falsy/absent `content` yields the string cast of
the first output element; a truthy non-list output yields its own string cast;
a falsy/absent output yields the fixed apology. -/
def extract_response_text (output? : Option Output) : String :=
  match output? with
  | none => "Sorry, I couldn't generate a response."
  | some out =>
    match out with
    | Output.olist [] => "Sorry, I couldn't generate a response."
    | Output.olist (e :: _) =>
      match e.content with
      | Content.clist (c :: _) => c.text
      | Content.clist [] => e.srepr
      | Content.cattr (some t) _ => t
      | Content.cattr none r => r
      | Content.cnone => e.srepr
    | Output.oobj r => r

/-- `process_query` (lines 231-295): if the session holds no truthy
vector-store id, return the fixed "not initialized" message without touching
the network.  Otherwise issue one `responses.create` call; if it raises,
return the error-description string and leave the session untouched; if it
returns, update `previous_response_id` from the response's `id` attribute when
present and extract the answer text.  Result: answer string, new session
state, trace of network events. -/
def process_query (s : Session) (svc : SvcResult) : String × Session × List NetEv :=
  if pyTruthy s.vector_store_id = false then
    ("RAG system not initialized. Please upload a document first.", s, [])
  else
    match svc with
    | SvcResult.raises msg =>
      ("Error processing query: " ++ msg, s, [NetEv.respCreate])
    | SvcResult.returns resp =>
      let s' := match resp.id with
        | some i => { s with previous_response_id := some i }
        | none => s
      (extract_response_text resp.output, s', [NetEv.respCreate])

/-- C2: with an unset vector-store id, `process_query` returns exactly the
fixed "not initialized" string and performs no network call. -/
theorem process_query_uninitialized (s : Session) (svc : SvcResult)
    (h : s.vector_store_id = none) :
    (process_query s svc).1 =
      "RAG system not initialized. Please upload a document first." ∧
    (process_query s svc).2.2 = [] := by
  simp [process_query, pyTruthy, h]

/-- Witness for `process_query_uninitialized` at a concrete session. -/
theorem process_query_uninitialized_witness :
    (process_query ⟨none, none⟩ (SvcResult.raises "boom")).1 =
      "RAG system not initialized. Please upload a document first." ∧
    (process_query ⟨none, none⟩ (SvcResult.raises "boom")).2.2 = [] :=
  process_query_uninitialized ⟨none, none⟩ (SvcResult.raises "boom") rfl

/-- C7: with an initialized vector store, a raising service call is not
propagated: `process_query` returns the error-description string, which
contains the exception's message. -/
theorem process_query_error_returned (s : Session) (v msg : String)
    (h : s.vector_store_id = some v) (hv : v ≠ "") :
    (process_query s (SvcResult.raises msg)).1 = "Error processing query: " ++ msg ∧
    ∃ p q, (process_query s (SvcResult.raises msg)).1 = p ++ msg ++ q := by
  have ht : pyTruthy s.vector_store_id = true := by
    simp [pyTruthy, h, hv]
  constructor
  · simp [process_query, ht]
  · exact ⟨"Error processing query: ", "", by simp [process_query, ht]⟩

/-- Witness for `process_query_error_returned` at a concrete session. -/
theorem process_query_error_returned_witness :
    (process_query ⟨some "vs_1", none⟩ (SvcResult.raises "timeout")).1 =
      "Error processing query: " ++ "timeout" ∧
    ∃ p q, (process_query ⟨some "vs_1", none⟩ (SvcResult.raises "timeout")).1 =
      p ++ "timeout" ++ q :=
  process_query_error_returned ⟨some "vs_1", none⟩ "vs_1" "timeout" rfl (by decide)

/-- C10: `process_query` never changes `vector_store_id`; and when the remote
call raises, the whole session is returned exactly as it was. -/
theorem process_query_frame (s : Session) (svc : SvcResult) :
    (process_query s svc).2.1.vector_store_id = s.vector_store_id ∧
    (∀ msg, svc = SvcResult.raises msg → (process_query s svc).2.1 = s) := by
  constructor
  · cases h : pyTruthy s.vector_store_id with
    | false => simp [process_query, h]
    | true =>
      cases svc with
      | raises msg => simp [process_query, h]
      | returns resp =>
        cases hid : resp.id with
        | none => simp [process_query, h, hid]
        | some i => simp [process_query, h, hid]
  · intro msg hmsg
    subst hmsg
    cases h : pyTruthy s.vector_store_id with
    | false => simp [process_query, h]
    | true => simp [process_query, h]

/-- Witness for `process_query_frame` at a concrete session and raising call. -/
theorem process_query_frame_witness :
    (process_query ⟨some "vs_1", some "r_0"⟩ (SvcResult.raises "down")).2.1.vector_store_id =
      (Session.mk (some "vs_1") (some "r_0")).vector_store_id ∧
    (∀ msg, SvcResult.raises "down" = SvcResult.raises msg →
      (process_query ⟨some "vs_1", some "r_0"⟩ (SvcResult.raises "down")).2.1 =
        ⟨some "vs_1", some "r_0"⟩) :=
  process_query_frame ⟨some "vs_1", some "r_0"⟩ (SvcResult.raises "down")

/-- C5: the extraction cascade follows the fixed precedence order: non-empty
content list gives its first element's text; a `.text` attribute gives that
attribute; otherwise the string cast of the content, of the first output
element, or of the whole output, as the earlier shapes are absent. -/
theorem extract_response_text_precedence (e : OutputElem) (rest : List OutputElem) :
    (∀ c cs, e.content = Content.clist (c :: cs) →
      extract_response_text (some (Output.olist (e :: rest))) = c.text) ∧
    (∀ t r, e.content = Content.cattr (some t) r →
      extract_response_text (some (Output.olist (e :: rest))) = t) ∧
    (∀ r, e.content = Content.cattr none r →
      extract_response_text (some (Output.olist (e :: rest))) = r) ∧
    (e.content = Content.cnone →
      extract_response_text (some (Output.olist (e :: rest))) = e.srepr) ∧
    (e.content = Content.clist [] →
      extract_response_text (some (Output.olist (e :: rest))) = e.srepr) ∧
    (∀ r, extract_response_text (some (Output.oobj r)) = r) := by
  refine ⟨?_, ?_, ?_, ?_, ?_, ?_⟩
  · intro c cs hc; simp [extract_response_text, hc]
  · intro t r hc; simp [extract_response_text, hc]
  · intro r hc; simp [extract_response_text, hc]
  · intro hc; simp [extract_response_text, hc]
  · intro hc; simp [extract_response_text, hc]
  · intro r; simp [extract_response_text]

/-- Witness for `extract_response_text_precedence`: the nested list shape
yields the first content part's text. -/
theorem extract_response_text_precedence_witness :
    extract_response_text
      (some (Output.olist [⟨Content.clist [⟨"hello"⟩], "elemrepr"⟩])) = "hello" :=
  (extract_response_text_precedence ⟨Content.clist [⟨"hello"⟩], "elemrepr"⟩ []).1
    ⟨"hello"⟩ [] rfl

/-- The outcome of the Sarvam transcription call inside `speech_to_text`:
either the transcript text, or a raised exception with its message. -/
inductive SttResult where
  | ok (transcript : String)
  | raises (msg : String)
deriving DecidableEq, Repr

/-- `speech_to_text` (lines 128-146): a try/except/finally.  On success the
transcript is returned; on any exception the error-description string is
returned instead; the `finally` block deletes the input file when it exists.
The filesystem is modelled as the list of existing paths; the result is the
returned text together with the filesystem after the call. -/
def speech_to_text (audio_file : String) (fs : List String) (svc : SttResult) :
    String × List String :=
  let text :=
    match svc with
    | SttResult.ok t => t
    | SttResult.raises e => "Error with speech recognition: " ++ e
  let fs' := if fs.contains audio_file then fs.filter (fun q => !(q == audio_file)) else fs
  (text, fs')

/-- C4: after `speech_to_text` returns, the input file no longer exists, both
when transcription succeeds and when it raises; the returned text is the
transcript in the first case and the error string in the second. -/
theorem speech_to_text_deletes_input (audio_file : String) (fs : List String)
    (svc : SttResult) :
    audio_file ∉ (speech_to_text audio_file fs svc).2 ∧
    (∀ t, svc = SttResult.ok t → (speech_to_text audio_file fs svc).1 = t) ∧
    (∀ e, svc = SttResult.raises e →
      (speech_to_text audio_file fs svc).1 = "Error with speech recognition: " ++ e) := by
  refine ⟨?_, ?_, ?_⟩
  · intro hmem
    by_cases h : fs.contains audio_file
    · simp only [speech_to_text, h, if_pos] at hmem
      rcases List.mem_filter.mp hmem with ⟨_, hp⟩
      simp at hp
    · simp only [speech_to_text, h, Bool.false_eq_true, if_false] at hmem
      simp only [Bool.not_eq_true] at h
      simp_all
  · intro t ht; subst ht; rfl
  · intro e he; subst he; rfl

/-- Witness for `speech_to_text_deletes_input` on a concrete filesystem, in
both the success branch and the failure branch. -/
theorem speech_to_text_deletes_input_witness :
    ("tmp.wav" ∉ (speech_to_text "tmp.wav" ["tmp.wav", "doc.pdf"] (SttResult.ok "hi")).2 ∧
      (∀ t, SttResult.ok "hi" = SttResult.ok t →
        (speech_to_text "tmp.wav" ["tmp.wav", "doc.pdf"] (SttResult.ok "hi")).1 = t) ∧
      (∀ e, SttResult.ok "hi" = SttResult.raises e →
        (speech_to_text "tmp.wav" ["tmp.wav", "doc.pdf"] (SttResult.ok "hi")).1 =
          "Error with speech recognition: " ++ e)) ∧
    "tmp.wav" ∉ (speech_to_text "tmp.wav" ["tmp.wav"] (SttResult.raises "bad")).2 :=
  ⟨speech_to_text_deletes_input "tmp.wav" ["tmp.wav", "doc.pdf"] (SttResult.ok "hi"),
   (speech_to_text_deletes_input "tmp.wav" ["tmp.wav"] (SttResult.raises "bad")).1⟩

/-- Remote events during `setup_rag_system`.  `storeDeleted` never occurs in
the code; it is present so that the absence of cleanup is expressible. -/
inductive RagEv where
  | uploaded (file_id : String)
  | storeCreated (vs_id : String)
  | attached (vs_id : String) (file_id : String)
  | storeDeleted (vs_id : String)
deriving DecidableEq, Repr

/-- `setup_rag_system` (lines 105-111): upload, create the vector store,
attach the file, in that order; any raise propagates at once and skips the
following steps, so `self.vector_store_id` is set only after all three
succeed.  No cleanup is attempted for a store whose attachment failed.
Result: the propagated error or the returned id, the session after the call,
and the trace of remote events. -/
def setup_rag_system (upload createVS : Except String String)
    (attach : Except String Unit) (s : Session) :
    Except String String × Session × List RagEv :=
  match upload with
  | Except.error e => (Except.error e, s, [])
  | Except.ok file_id =>
    match createVS with
    | Except.error e => (Except.error e, s, [RagEv.uploaded file_id])
    | Except.ok vs_id =>
      match attach with
      | Except.error e =>
        (Except.error e, s, [RagEv.uploaded file_id, RagEv.storeCreated vs_id])
      | Except.ok _ =>
        (Except.ok vs_id, { s with vector_store_id := some vs_id },
          [RagEv.uploaded file_id, RagEv.storeCreated vs_id,
            RagEv.attached vs_id file_id])

/-- C8: `setup_rag_system` succeeds only when upload, store creation and
attachment all succeed, in that order; a successful run sets the session's
vector-store id and leaves the full ordered trace; when attachment fails
after store creation, the propagated error is the attachment's, the session
is unchanged, the created store appears in the trace and no deletion event
ever occurs. -/
theorem setup_rag_system_ordering (upload createVS : Except String String)
    (attach : Except String Unit) (s : Session) :
    (∀ vs_id, (setup_rag_system upload createVS attach s).1 = Except.ok vs_id →
      ∃ file_id, upload = Except.ok file_id ∧ createVS = Except.ok vs_id ∧
        attach = Except.ok () ∧
        (setup_rag_system upload createVS attach s).2.1.vector_store_id = some vs_id) ∧
    (∀ file_id vs_id, upload = Except.ok file_id → createVS = Except.ok vs_id →
      attach = Except.ok () →
      setup_rag_system upload createVS attach s =
        (Except.ok vs_id, { s with vector_store_id := some vs_id },
          [RagEv.uploaded file_id, RagEv.storeCreated vs_id,
            RagEv.attached vs_id file_id])) ∧
    (∀ file_id vs_id e, upload = Except.ok file_id → createVS = Except.ok vs_id →
      attach = Except.error e →
      (setup_rag_system upload createVS attach s).1 = Except.error e ∧
      (setup_rag_system upload createVS attach s).2.1 = s ∧
      RagEv.storeCreated vs_id ∈ (setup_rag_system upload createVS attach s).2.2 ∧
      (∀ x, RagEv.storeDeleted x ∉ (setup_rag_system upload createVS attach s).2.2)) := by
  refine ⟨?_, ?_, ?_⟩
  · intro vs_id hok
    cases upload with
    | error e => simp [setup_rag_system] at hok
    | ok file_id =>
      cases createVS with
      | error e => simp [setup_rag_system] at hok
      | ok v =>
        cases attach with
        | error e => simp [setup_rag_system] at hok
        | ok u =>
          simp only [setup_rag_system, Except.ok.injEq] at hok
          subst hok
          exact ⟨file_id, rfl, rfl, rfl, rfl⟩
  · intro file_id vs_id hu hc ha
    subst hu; subst hc; subst ha
    rfl
  · intro file_id vs_id e hu hc ha
    subst hu; subst hc; subst ha
    refine ⟨rfl, rfl, by simp [setup_rag_system], ?_⟩
    intro x
    simp [setup_rag_system]

/-- Witness for `setup_rag_system_ordering`: the attach-failure branch at
concrete values surfaces the attach error, keeps the session as it was, and
records the orphaned store with no deletion. -/
theorem setup_rag_system_ordering_witness :
    (setup_rag_system (Except.ok "f_1") (Except.ok "vs_1")
        (Except.error "attach refused") ⟨none, none⟩).1 = Except.error "attach refused" ∧
    (setup_rag_system (Except.ok "f_1") (Except.ok "vs_1")
        (Except.error "attach refused") ⟨none, none⟩).2.1 = ⟨none, none⟩ ∧
    RagEv.storeCreated "vs_1" ∈
      (setup_rag_system (Except.ok "f_1") (Except.ok "vs_1")
        (Except.error "attach refused") ⟨none, none⟩).2.2 ∧
    (∀ x, RagEv.storeDeleted x ∉
      (setup_rag_system (Except.ok "f_1") (Except.ok "vs_1")
        (Except.error "attach refused") ⟨none, none⟩).2.2) :=
  (setup_rag_system_ordering (Except.ok "f_1") (Except.ok "vs_1")
    (Except.error "attach refused") ⟨none, none⟩).2.2 "f_1" "vs_1" "attach refused"
    rfl rfl rfl

/-- Per-segment outcome of `_play_base64_audio` (lines 182-207): either every
step succeeds, or `base64.b64decode` raises (before the temporary file is
written), or `pygame.mixer.music.load`/`play` raises (after the temporary
file was written).  The surrounding try/except catches every raise. -/
inductive SegOutcome where
  | ok
  | decodeFail (msg : String)
  | playFail (msg : String)
deriving DecidableEq, Repr

/-- Per-call outcome of `_play_audio_with_save` (lines 209-229): success, a
raise from `save` inside the with-block (the named temporary file is already
created when it is opened), or a raise from load/play afterwards. -/
inductive SaveOutcome where
  | ok
  | saveFail (msg : String)
  | playFail (msg : String)
deriving DecidableEq, Repr

/-- Audio-side events, each tagged with its segment index: entering the
per-segment playback helper, creating the temporary file, finishing playback
(the busy-poll on `pygame.mixer.music.get_busy` returning idle), and
deleting the temporary file. -/
inductive AudioEv where
  | segStart (i : Nat)
  | created (i : Nat)
  | played (i : Nat)
  | deleted (i : Nat)
deriving DecidableEq, Repr

/-- `_play_base64_audio`: decode, write the temporary file, load and play,
busy-wait, then `os.unlink`.  The except clause only logs, so a raise after
the temporary file was written skips the unlink. -/
def play_base64_audio (i : Nat) : SegOutcome → List AudioEv
  | SegOutcome.ok =>
    [AudioEv.segStart i, AudioEv.created i, AudioEv.played i, AudioEv.deleted i]
  | SegOutcome.decodeFail _ => [AudioEv.segStart i]
  | SegOutcome.playFail _ => [AudioEv.segStart i, AudioEv.created i]

/-- `_play_audio_with_save`: open the named temporary file (creating it),
`save` into it, load and play, busy-wait, then `os.unlink`.  The except
clause only logs, so a raise after the file was created skips the unlink. -/
def play_audio_with_save (i : Nat) : SaveOutcome → List AudioEv
  | SaveOutcome.ok =>
    [AudioEv.segStart i, AudioEv.created i, AudioEv.played i, AudioEv.deleted i]
  | SaveOutcome.saveFail _ => [AudioEv.segStart i, AudioEv.created i]
  | SaveOutcome.playFail _ => [AudioEv.segStart i, AudioEv.created i]

/-- The `for i, audio_data in enumerate(audio_segments)` loop of
`text_to_speech`: play segment `i`, then the rest with the counter advanced.
A failing segment only logs inside `_play_base64_audio`, so the loop always
continues to the next segment. -/
def playSegments (i : Nat) : List SegOutcome → List AudioEv
  | [] => []
  | o :: rest => play_base64_audio i o ++ playSegments (i + 1) rest

/-- The outcome of the Sarvam synthesis call in `text_to_speech`
(lines 148-180): a raise, a response with an `audios` list attribute, or a
single-payload response handled by the save path. -/
inductive SynthResult where
  | raises (msg : String)
  | audios (segs : List SegOutcome)
  | single (p : SaveOutcome)
deriving DecidableEq, Repr

/-- `text_to_speech`: on a raise nothing is played (the outer except only
logs); on an `audios` list each segment is played sequentially starting at
index 0; otherwise the single-segment save path runs with index 0. -/
def text_to_speech : SynthResult → List AudioEv
  | SynthResult.raises _ => []
  | SynthResult.audios segs => playSegments 0 segs
  | SynthResult.single p => play_audio_with_save 0 p

/-- Projects the segment index of a playback-invocation event. -/
def segStartIdx : AudioEv → Option Nat
  | AudioEv.segStart i => some i
  | _ => none

/-- The segment index carried by any audio event. -/
def evIdx : AudioEv → Nat
  | AudioEv.segStart i => i
  | AudioEv.created i => i
  | AudioEv.played i => i
  | AudioEv.deleted i => i

lemma play_base64_audio_filterMap_segStartIdx (i : Nat) (o : SegOutcome) :
    (play_base64_audio i o).filterMap segStartIdx = [i] := by
  cases o <;> rfl

lemma play_base64_audio_evIdx (i : Nat) (o : SegOutcome) :
    ∀ e ∈ play_base64_audio i o, evIdx e = i := by
  cases o <;> simp [play_base64_audio, evIdx]

lemma playSegments_filterMap_segStartIdx (k : Nat) (segs : List SegOutcome) :
    (playSegments k segs).filterMap segStartIdx = List.range' k segs.length := by
  induction segs generalizing k with
  | nil => rfl
  | cons o rest ih =>
    rw [playSegments, List.filterMap_append, play_base64_audio_filterMap_segStartIdx,
      List.length_cons, List.range'_succ k rest.length 1, ih (k + 1)]
    rfl

lemma playSegments_evIdx_ge (k : Nat) (segs : List SegOutcome) :
    ∀ e ∈ playSegments k segs, k ≤ evIdx e := by
  induction segs generalizing k with
  | nil => simp [playSegments]
  | cons o rest ih =>
    intro e he
    rcases List.mem_append.mp he with h | h
    · exact (play_base64_audio_evIdx k o e h).ge
    · exact Nat.le_of_succ_le (ih (k + 1) e h)

lemma play_base64_audio_map_evIdx_sorted (k : Nat) (o : SegOutcome) :
    ((play_base64_audio k o).map evIdx).Sorted (· ≤ ·) := by
  cases o <;> simp [play_base64_audio, evIdx, List.sorted_cons]

lemma playSegments_map_evIdx_sorted (k : Nat) (segs : List SegOutcome) :
    ((playSegments k segs).map evIdx).Sorted (· ≤ ·) := by
  induction segs generalizing k with
  | nil => simp [playSegments]
  | cons o rest ih =>
    rw [playSegments, List.map_append]
    refine List.pairwise_append.mpr
      ⟨play_base64_audio_map_evIdx_sorted k o, ih (k + 1), ?_⟩
    intro a ha b hb
    rcases List.mem_map.mp ha with ⟨e, he, rfl⟩
    rcases List.mem_map.mp hb with ⟨f, hf, rfl⟩
    rw [play_base64_audio_evIdx k o e he]
    exact Nat.le_of_succ_le (playSegments_evIdx_ge (k + 1) rest f hf)

/-- C6 (confirmed): for a synthesis response whose `audios` field lists `N`
segment outcomes — failing or not — `text_to_speech` enters the per-segment
playback helper exactly `N` times, at indices `0, 1, ..., N-1` in that order,
and every event of a segment occurs before any event of a later segment. -/
theorem tts_plays_segments_in_order (segs : List SegOutcome) :
    (text_to_speech (SynthResult.audios segs)).filterMap segStartIdx =
      List.range segs.length ∧
    ((text_to_speech (SynthResult.audios segs)).map evIdx).Sorted (· ≤ ·) := by
  constructor
  · rw [List.range_eq_range']
    exact playSegments_filterMap_segStartIdx 0 segs
  · exact playSegments_map_evIdx_sorted 0 segs

/-- C3 counterexample: a segment whose load/play step raises after the
temporary file was written leaves the file behind — `created` occurs in the
trace but `deleted` never does, refuting deletion "on all paths". -/
theorem play_base64_audio_leak_cex :
    AudioEv.created 0 ∈ play_base64_audio 0 (SegOutcome.playFail "load failed") ∧
    AudioEv.deleted 0 ∉ play_base64_audio 0 (SegOutcome.playFail "load failed") := by
  decide

/-- C3 amended: in both playback helpers the temporary file is deleted after
playback exactly on the fully successful path; a decode failure precedes file
creation so nothing is left behind, but a load/play failure (or a `save`
failure in the save path) occurs after creation and the except handler skips
the unlink, leaking the file. -/
theorem play_audio_cleanup (i : Nat) (o : SegOutcome) (p : SaveOutcome) :
    (AudioEv.deleted i ∈ play_base64_audio i o ↔ o = SegOutcome.ok) ∧
    (o = SegOutcome.ok → play_base64_audio i o =
      [AudioEv.segStart i, AudioEv.created i, AudioEv.played i, AudioEv.deleted i]) ∧
    (∀ m, o = SegOutcome.decodeFail m → AudioEv.created i ∉ play_base64_audio i o) ∧
    (∀ m, o = SegOutcome.playFail m → AudioEv.created i ∈ play_base64_audio i o ∧
      AudioEv.deleted i ∉ play_base64_audio i o) ∧
    (AudioEv.deleted i ∈ play_audio_with_save i p ↔ p = SaveOutcome.ok) := by
  refine ⟨?_, ?_, ?_, ?_, ?_⟩
  · cases o <;> simp [play_base64_audio]
  · intro h; subst h; rfl
  · intro m h; subst h; simp [play_base64_audio]
  · intro m h; subst h; simp [play_base64_audio]
  · cases p <;> simp [play_audio_with_save]

/-- Witness for `play_audio_cleanup`: on the fully successful segment the
temporary file is deleted, and the deletion follows the playback step. -/
theorem play_audio_cleanup_witness :
    AudioEv.deleted 0 ∈ play_base64_audio 0 SegOutcome.ok ∧
    play_base64_audio 0 SegOutcome.ok =
      [AudioEv.segStart 0, AudioEv.created 0, AudioEv.played 0, AudioEv.deleted 0] :=
  ⟨(play_audio_cleanup 0 SegOutcome.ok SaveOutcome.ok).1.mpr rfl,
   (play_audio_cleanup 0 SegOutcome.ok SaveOutcome.ok).2.1 rfl⟩

/-- The outcome of one iteration of the `while True` body of
`conversation_loop` (lines 297-323): a `KeyboardInterrupt` delivered at the
iteration boundary, any other exception escaping the body with its message,
or a normal pass in which speech-to-text produced `transcript` and — when the
transcript is non-empty — the query produced `answer`. -/
inductive IterSig where
  | interrupt
  | fail (msg : String)
  | normal (transcript : String) (answer : String)
deriving DecidableEq, Repr

/-- Observable steps of the conversation loop: recording, transcription, a
query to the RAG pipeline, and a synthesis-and-speak call. -/
inductive LoopEv where
  | record
  | stt
  | query (q : String)
  | speak (t : String)
deriving DecidableEq, Repr

/-- `conversation_loop` run against a finite script of iteration outcomes,
returning the event trace and whether the loop exited.  `KeyboardInterrupt`
speaks the fixed farewell and breaks; every other exception speaks the fixed
apology and continues; a normal iteration with an empty transcript hits the
`continue` before query and synthesis; a normal iteration with a non-empty
transcript queries and speaks the answer.  An exhausted script means the loop
is still running (it exited on nothing in the script). -/
def conversation_loop : List IterSig → List LoopEv × Bool
  | [] => ([], false)
  | IterSig.interrupt :: _ => ([LoopEv.speak "Goodbye!"], true)
  | IterSig.fail _ :: rest =>
    let r := conversation_loop rest
    (LoopEv.speak "Sorry, I encountered an error." :: r.1, r.2)
  | IterSig.normal t a :: rest =>
    let r := conversation_loop rest
    if t = "" then (LoopEv.record :: LoopEv.stt :: r.1, r.2)
    else (LoopEv.record :: LoopEv.stt :: LoopEv.query t :: LoopEv.speak a :: r.1, r.2)

lemma conversation_loop_no_interrupt (s : List IterSig)
    (h : IterSig.interrupt ∉ s) : (conversation_loop s).2 = false := by
  induction s with
  | nil => rfl
  | cons x rest ih =>
    have hx : x ≠ IterSig.interrupt := fun hc => h (hc ▸ List.mem_cons_self x rest)
    have hrest : IterSig.interrupt ∉ rest := fun hc => h (List.mem_cons_of_mem x hc)
    cases x with
    | interrupt => exact absurd rfl hx
    | fail m => simpa [conversation_loop] using ih hrest
    | normal t a =>
      by_cases ht : t = "" <;> simpa [conversation_loop, ht] using ih hrest

lemma conversation_loop_mem_interrupt (s : List IterSig)
    (h : IterSig.interrupt ∈ s) : (conversation_loop s).2 = true := by
  induction s with
  | nil => cases h
  | cons x rest ih =>
    cases x with
    | interrupt => rfl
    | fail m =>
      have hrest : IterSig.interrupt ∈ rest := by
        rcases List.mem_cons.mp h with hc | hc
        · cases hc
        · exact hc
      simpa [conversation_loop] using ih hrest
    | normal t a =>
      have hrest : IterSig.interrupt ∈ rest := by
        rcases List.mem_cons.mp h with hc | hc
        · cases hc
        · exact hc
      by_cases ht : t = "" <;> simpa [conversation_loop, ht] using ih hrest

lemma conversation_loop_split (pre post : List IterSig)
    (h : IterSig.interrupt ∉ pre) :
    conversation_loop (pre ++ IterSig.interrupt :: post) =
      ((conversation_loop pre).1 ++ [LoopEv.speak "Goodbye!"], true) := by
  induction pre with
  | nil => rfl
  | cons x rest ih =>
    have hx : x ≠ IterSig.interrupt := fun hc => h (hc ▸ List.mem_cons_self x rest)
    have hrest : IterSig.interrupt ∉ rest := fun hc => h (List.mem_cons_of_mem x hc)
    cases x with
    | interrupt => exact absurd rfl hx
    | fail m => simp [conversation_loop, ih hrest]
    | normal t a =>
      by_cases ht : t = "" <;> simp [conversation_loop, ht, ih hrest]

/-- C1 (confirmed): the conversation loop exits exactly when the interruption
signal occurs in the script; when it does, the trace is the trace of the
preceding iterations followed by exactly one farewell synthesis call — the
last event — and nothing after the interruption runs; on scripts without an
interruption (any mix of failing and normal iterations) the loop never
exits. -/
theorem conversation_loop_exit_only_on_interrupt (s : List IterSig) :
    ((conversation_loop s).2 = true ↔ IterSig.interrupt ∈ s) ∧
    (∀ pre post, s = pre ++ IterSig.interrupt :: post → IterSig.interrupt ∉ pre →
      conversation_loop s =
        ((conversation_loop pre).1 ++ [LoopEv.speak "Goodbye!"], true)) ∧
    (IterSig.interrupt ∉ s → (conversation_loop s).2 = false) := by
  refine ⟨⟨?_, conversation_loop_mem_interrupt s⟩, ?_, conversation_loop_no_interrupt s⟩
  · intro htrue
    by_contra hmem
    exact absurd htrue (by simp [conversation_loop_no_interrupt s hmem])
  · intro pre post hs hpre
    subst hs
    exact conversation_loop_split pre post hpre

/-- Witness for `conversation_loop_exit_only_on_interrupt`: a script with one
normal iteration, one failing iteration, then the interruption, then a
further iteration that never runs. -/
theorem conversation_loop_exit_only_on_interrupt_witness :
    conversation_loop
        [IterSig.normal "hi" "ans", IterSig.fail "boom", IterSig.interrupt,
          IterSig.normal "late" "never"] =
      ((conversation_loop [IterSig.normal "hi" "ans", IterSig.fail "boom"]).1 ++
        [LoopEv.speak "Goodbye!"], true) :=
  (conversation_loop_exit_only_on_interrupt
      [IterSig.normal "hi" "ans", IterSig.fail "boom", IterSig.interrupt,
        IterSig.normal "late" "never"]).2.1
    [IterSig.normal "hi" "ans", IterSig.fail "boom"] [IterSig.normal "late" "never"]
    rfl (by decide)

/-- C9 (confirmed): an iteration whose transcript is empty contributes only
the capture and transcription events — no query and no synthesis — and the
loop immediately continues with the remaining script. -/
theorem conversation_loop_empty_transcript (a : String) (rest : List IterSig) :
    conversation_loop (IterSig.normal "" a :: rest) =
      ([LoopEv.record, LoopEv.stt] ++ (conversation_loop rest).1,
        (conversation_loop rest).2) ∧
    (∀ q, LoopEv.query q ∉ [LoopEv.record, LoopEv.stt]) ∧
    (∀ t, LoopEv.speak t ∉ [LoopEv.record, LoopEv.stt]) := by
  refine ⟨?_, ?_, ?_⟩
  · simp [conversation_loop]
  · intro q; simp
  · intro t; simp

/-- Witness for `conversation_loop_empty_transcript` on a concrete script. -/
theorem conversation_loop_empty_transcript_witness :
    conversation_loop [IterSig.normal "" "unused"] =
      ([LoopEv.record, LoopEv.stt] ++ (conversation_loop []).1,
        (conversation_loop []).2) ∧
    (∀ q, LoopEv.query q ∉ [LoopEv.record, LoopEv.stt]) ∧
    (∀ t, LoopEv.speak t ∉ [LoopEv.record, LoopEv.stt]) :=
  conversation_loop_empty_transcript "unused" []
